import Mathlib

/-!
Shallow embedding of the CloudSentinel API core (apps/api/main.py and
apps/api/models.py): the tenant-scoped authorization guard, the asset and
finding stores, and the run-checks rule engine.

The SQL store is modelled as explicit lists of rows inside a `DB` record;
primary keys are drawn from a counter `next_id`, and row timestamps from a
logical clock `now` that advances by one for each inserted row (sequential
calls of datetime.utcnow in the source).  Each mutating endpoint is a pure
function `DB -> args -> Except ApiError result × DB`: an HTTPException raised
before any commit leaves the store untouched, so error branches return the
input `DB` unchanged, exactly as in the source where `raise` precedes every
`db.add`/`db.delete`/`db.commit`.
-/

namespace CloudSentinel

/-- Row of the `users` table (models.py, class User). -/
structure User where
  id : Nat
  email : String
  password_hash : String
  is_active : Bool
deriving Repr, DecidableEq

/-- Row of the `tenants` table (models.py, class Tenant). -/
structure Tenant where
  id : Nat
  name : String
deriving Repr, DecidableEq

/-- Row of the `user_tenants` table (models.py, class UserTenant). -/
structure UserTenant where
  id : Nat
  user_id : Nat
  tenant_id : Nat
  role : String
deriving Repr, DecidableEq

/-- Row of the `assets` table (models.py, class Asset).  `config_json` is the
serialized text blob; `created_at` is the utcnow default. -/
structure Asset where
  id : Nat
  tenant_id : Nat
  type : String
  name : String
  region : Option String
  config_json : Option String
  created_at : Nat
deriving Repr, DecidableEq

/-- Row of the `findings` table (models.py, class Finding). -/
structure Finding where
  id : Nat
  tenant_id : Nat
  asset_id : Nat
  severity : String
  title : String
  description : Option String
  status : String
  created_at : Nat
deriving Repr, DecidableEq

/-- The relational store: one list of rows per table, plus the primary-key
sequence `next_id` and the logical clock `now` used for `created_at`. -/
structure DB where
  users : List User
  tenants : List Tenant
  memberships : List UserTenant
  assets : List Asset
  findings : List Finding
  next_id : Nat
  now : Nat
deriving Repr, DecidableEq

/-- Error taxonomy of the endpoints: HTTPException status codes 404, 403, 400
as raised in main.py. -/
inductive ApiError where
  | notFound (detail : String)
  | forbidden (detail : String)
  | badRequest (detail : String)
deriving Repr, DecidableEq

/-- Request body of POST /tenants (schemas.py, TenantCreate). -/
structure TenantCreate where
  name : String
deriving Repr, DecidableEq

/-- Request body of POST /assets (schemas.py, AssetCreate); the config dict is
kept as its serialized text. -/
structure AssetCreate where
  tenant_id : Nat
  type : String
  name : String
  region : Option String
  config_json : Option String
deriving Repr, DecidableEq

/-- Request body of PATCH /findings/:id (schemas.py, FindingUpdate). -/
structure FindingUpdate where
  status : String
deriving Repr, DecidableEq

/-- main.py `get_user_by_email`: first users row with this email. -/
def get_user_by_email (db : DB) (email : String) : Option User :=
  db.users.find? (fun u => u.email == email)

/-- main.py `ensure_user_in_tenant` (lines 93-98): query the membership link
for (user_id, tenant_id); raise 403 when absent.  No side effects. -/
def ensure_user_in_tenant (db : DB) (user_id : Nat) (tenant_id : Nat) :
    Except ApiError Unit :=
  match db.memberships.find?
      (fun l => l.user_id == user_id && l.tenant_id == tenant_id) with
  | some _ => Except.ok ()
  | none => Except.error (ApiError.forbidden "User not linked to this tenant")

/-- main.py `create_tenant`: 404 when the caller email resolves to no user,
400 on duplicate name, else insert the tenant and an owner membership. -/
def create_tenant (db : DB) (email : String) (payload : TenantCreate) :
    Except ApiError Tenant × DB :=
  match get_user_by_email db email with
  | none => (Except.error (ApiError.notFound "User not found"), db)
  | some user =>
    match db.tenants.find? (fun t => t.name == payload.name) with
    | some _ => (Except.error (ApiError.badRequest "Tenant name already exists"), db)
    | none =>
      let t : Tenant := { id := db.next_id, name := payload.name }
      let link : UserTenant :=
        { id := db.next_id + 1, user_id := user.id, tenant_id := t.id, role := "owner" }
      (Except.ok t,
       { db with tenants := db.tenants ++ [t],
                 memberships := db.memberships ++ [link],
                 next_id := db.next_id + 2,
                 now := db.now + 1 })

/-- main.py `create_asset`: resolve user, guard membership of the payload
tenant, then insert the asset row. -/
def create_asset (db : DB) (email : String) (payload : AssetCreate) :
    Except ApiError Asset × DB :=
  match get_user_by_email db email with
  | none => (Except.error (ApiError.notFound "User not found"), db)
  | some user =>
    match ensure_user_in_tenant db user.id payload.tenant_id with
    | Except.error e => (Except.error e, db)
    | Except.ok _ =>
      let a : Asset :=
        { id := db.next_id, tenant_id := payload.tenant_id,
          type := payload.type, name := payload.name,
          region := payload.region, config_json := payload.config_json,
          created_at := db.now }
      (Except.ok a,
       { db with assets := db.assets ++ [a],
                 next_id := db.next_id + 1,
                 now := db.now + 1 })

/-- main.py `list_assets`: guard membership, then all assets of the tenant.
Read-only. -/
def list_assets (db : DB) (email : String) (tenant_id : Nat) :
    Except ApiError (List Asset) :=
  match get_user_by_email db email with
  | none => Except.error (ApiError.notFound "User not found")
  | some user =>
    match ensure_user_in_tenant db user.id tenant_id with
    | Except.error e => Except.error e
    | Except.ok _ => Except.ok (db.assets.filter (fun a => a.tenant_id == tenant_id))

/-- main.py `delete_asset`: resolve user, look the asset up (404 when absent),
guard membership of the asset's tenant, then delete.  The foreign key
`findings.asset_id` carries ondelete CASCADE (models.py), so the asset's
findings are removed with it. -/
def delete_asset (db : DB) (email : String) (asset_id : Nat) :
    Except ApiError Unit × DB :=
  match get_user_by_email db email with
  | none => (Except.error (ApiError.notFound "User not found"), db)
  | some user =>
    match db.assets.find? (fun a => a.id == asset_id) with
    | none => (Except.error (ApiError.notFound "Asset not found"), db)
    | some a =>
      match ensure_user_in_tenant db user.id a.tenant_id with
      | Except.error e => (Except.error e, db)
      | Except.ok _ =>
        (Except.ok (),
         { db with assets := db.assets.filter (fun x => !(x.id == a.id)),
                   findings := db.findings.filter (fun f => !(f.asset_id == a.id)),
                   now := db.now + 1 })

/-- Sort findings by `created_at` descending (insertion sort), modelling the
`order_by(Finding.created_at.desc())` clause of list_findings. -/
def insertDesc (f : Finding) : List Finding → List Finding
  | [] => [f]
  | g :: gs => if g.created_at ≤ f.created_at then f :: g :: gs
               else g :: insertDesc f gs

/-- Full sort for the list_findings ORDER BY clause. -/
def sortByCreatedDesc : List Finding → List Finding
  | [] => []
  | f :: fs => insertDesc f (sortByCreatedDesc fs)

/-- main.py `list_findings`: guard membership; filter by tenant, optionally by
status (Python truthiness: an empty status string disables the filter), order
newest first.  Read-only. -/
def list_findings (db : DB) (email : String) (tenant_id : Nat)
    (status_f : Option String) : Except ApiError (List Finding) :=
  match get_user_by_email db email with
  | none => Except.error (ApiError.notFound "User not found")
  | some user =>
    match ensure_user_in_tenant db user.id tenant_id with
    | Except.error e => Except.error e
    | Except.ok _ =>
      let q := db.findings.filter (fun f => f.tenant_id == tenant_id)
      let q := match status_f with
        | some s => if s == "" then q else q.filter (fun f => f.status == s)
        | none => q
      Except.ok (sortByCreatedDesc q)

/-- Predicate of the run_checks delete and of its final query: the finding
belongs to the tenant and has status "open". -/
def openFor (tenant_id : Nat) (f : Finding) : Bool :=
  f.tenant_id == tenant_id && f.status == "open"

/-- The state committed by the FIRST `db.commit()` inside run_checks
(main.py lines 199-201): all open findings of the tenant deleted, nothing
inserted yet.  This commit ends a transaction, so the state is visible to
concurrent readers before the new findings exist. -/
def run_checks_commit1 (db : DB) (tenant_id : Nat) : DB :=
  { db with findings := db.findings.filter (fun f => !(openFor tenant_id f)) }

/-- A finding as constructed inside the run_checks loop, before the store
assigns `id` and `created_at`. -/
structure FindingDraft where
  tenant_id : Nat
  asset_id : Nat
  severity : String
  title : String
  description : String
  status : String
deriving Repr, DecidableEq

/-- Python truthiness of `not a.region`: true for None and for the empty
string. -/
def regionMissing : Option String → Bool
  | none => true
  | some s => s == ""

/-- Python str.endswith over the character list of the string. -/
def ends_with (s : String) (sfx : String) : Bool := sfx.data.isSuffixOf s.data

/-- The body of the run_checks loop (main.py lines 206-222) for one asset:
rule R1 (low) when the asset is an s3 bucket whose name does not end in
"-prod", rule R2 (medium) when the region is missing; the two rules are
evaluated independently and both may fire. -/
def evalRules (tenant_id : Nat) (a : Asset) : List FindingDraft :=
  (if a.type == "aws_s3_bucket" && !(ends_with a.name "-prod") then
    [{ tenant_id := tenant_id, asset_id := a.id, severity := "low",
       title := "S3 bucket not tagged as production",
       description := "Bucket \x27" ++ a.name ++ "\x27 does not end with \x27-prod\x27.",
       status := "open" }]
  else []) ++
  (if regionMissing a.region then
    [{ tenant_id := tenant_id, asset_id := a.id, severity := "medium",
       title := "Asset has no region set",
       description := "Asset \x27" ++ a.name ++ "\x27 has no region specified.",
       status := "open" }]
  else [])

/-- Insert a batch of drafts: the store assigns consecutive primary keys from
`next_id` and stamps `created_at` from consecutive ticks of the clock. -/
def instantiate (next_id : Nat) (now : Nat) : List FindingDraft → List Finding
  | [] => []
  | d :: ds =>
    { id := next_id, tenant_id := d.tenant_id, asset_id := d.asset_id,
      severity := d.severity, title := d.title,
      description := some d.description, status := d.status,
      created_at := now } :: instantiate (next_id + 1) (now + 1) ds

/-- main.py `run_checks` (lines 186-228): resolve user, guard membership,
commit the deletion of the tenant's open findings (first commit), evaluate
both rules over the tenant's assets, insert the drafts (second commit), and
return the tenant's open findings as re-read from the store — the final
query carries no order_by clause, so rows come back in store (insertion)
order. -/
def run_checks (db : DB) (email : String) (tenant_id : Nat) :
    Except ApiError (List Finding) × DB :=
  match get_user_by_email db email with
  | none => (Except.error (ApiError.notFound "User not found"), db)
  | some user =>
    match ensure_user_in_tenant db user.id tenant_id with
    | Except.error e => (Except.error e, db)
    | Except.ok _ =>
      let db1 := run_checks_commit1 db tenant_id
      let to_add := (db1.assets.filter (fun a => a.tenant_id == tenant_id)).flatMap
        (evalRules tenant_id)
      let db2 : DB :=
        { db1 with findings := db1.findings ++ instantiate db1.next_id db1.now to_add,
                   next_id := db1.next_id + to_add.length,
                   now := db1.now + to_add.length }
      (Except.ok (db2.findings.filter (openFor tenant_id)), db2)

/-- ORM mutation `f.status = payload.status` on the row the query returned:
the first findings row with this id gets the new status. -/
def setStatusFirst (finding_id : Nat) (s : String) : List Finding → List Finding
  | [] => []
  | f :: fs =>
    if f.id == finding_id then { f with status := s } :: fs
    else f :: setStatusFirst finding_id s fs

/-- main.py `update_finding` (lines 230-243): resolve user, look the finding
up (404 when absent), guard membership of the finding's tenant, then write
the payload status verbatim — no validation of the status string. -/
def update_finding (db : DB) (email : String) (finding_id : Nat)
    (payload : FindingUpdate) : Except ApiError Finding × DB :=
  match get_user_by_email db email with
  | none => (Except.error (ApiError.notFound "User not found"), db)
  | some user =>
    match db.findings.find? (fun f => f.id == finding_id) with
    | none => (Except.error (ApiError.notFound "Finding not found"), db)
    | some f =>
      match ensure_user_in_tenant db user.id f.tenant_id with
      | Except.error e => (Except.error e, db)
      | Except.ok _ =>
        (Except.ok { f with status := payload.status },
         { db with findings := setStatusFirst finding_id payload.status db.findings,
                   now := db.now + 1 })

/-- One state-mutating endpoint invocation, with its already-authenticated
caller email and its arguments. -/
inductive Op where
  | createTenant (email : String) (payload : TenantCreate)
  | createAsset (email : String) (payload : AssetCreate)
  | deleteAsset (email : String) (asset_id : Nat)
  | runChecks (email : String) (tenant_id : Nat)
  | updateFinding (email : String) (finding_id : Nat) (payload : FindingUpdate)
deriving Repr, DecidableEq

/-- Apply one endpoint call to the store (the response is dropped; an error
leaves the store as it was). -/
def applyOp (db : DB) : Op → DB
  | Op.createTenant e p => (create_tenant db e p).2
  | Op.createAsset e p => (create_asset db e p).2
  | Op.deleteAsset e aid => (delete_asset db e aid).2
  | Op.runChecks e t => (run_checks db e t).2
  | Op.updateFinding e fid p => (update_finding db e fid p).2

/-- Apply a sequence of endpoint calls left to right. -/
def applyOps (db : DB) (ops : List Op) : DB := ops.foldl applyOp db

/-- Store invariant of §3 of the spec: every finding references an asset that
exists and belongs to the finding's own tenant. -/
def FindingConsistent (db : DB) : Prop :=
  ∀ f ∈ db.findings, ∃ a ∈ db.assets, a.id = f.asset_id ∧ a.tenant_id = f.tenant_id

/-- The drafts one successful run_checks call generates: both rules over every
asset of the tenant, in asset order. -/
def newDrafts (db : DB) (tenant_id : Nat) : List FindingDraft :=
  (db.assets.filter (fun a => a.tenant_id == tenant_id)).flatMap (evalRules tenant_id)

/-- The findings a successful run_checks call inserts and returns. -/
def run_checks_result (db : DB) (tenant_id : Nat) : List Finding :=
  instantiate db.next_id db.now (newDrafts db tenant_id)

/-- The store a successful run_checks call leaves behind. -/
def run_checks_final (db : DB) (tenant_id : Nat) : DB :=
  { db with
      findings := db.findings.filter (fun f => !(openFor tenant_id f)) ++
        run_checks_result db tenant_id,
      next_id := db.next_id + (newDrafts db tenant_id).length,
      now := db.now + (newDrafts db tenant_id).length }

/-- The rule-match identity of a finding: which asset it is about and which
rule produced it (severity and title are rule-intrinsic constants).  Finding
ids and timestamps are excluded on purpose. -/
def ruleKey (f : Finding) : Nat × String × String := (f.asset_id, f.severity, f.title)

/-- The rule-match identity of a draft. -/
def draftKey (d : FindingDraft) : Nat × String × String := (d.asset_id, d.severity, d.title)

/-- Whether a findings list is sorted by `created_at` descending (newest
first), as the spec asks of the run_checks return value. -/
def createdDescending : List Finding → Bool
  | [] => true
  | [_] => true
  | f :: g :: r => (g.created_at ≤ f.created_at) && createdDescending (g :: r)

/-- True when the call succeeded and its result is NOT sorted newest first. -/
def okNotDescending : Except ApiError (List Finding) → Bool
  | Except.ok r => !(createdDescending r)
  | Except.error _ => false

/-- Concrete witnesses: user ana (id 1) owns tenant 1, user bob (id 2) owns
tenant 2 and has no membership row for tenant 1. -/
def demoUserAna : User :=
  { id := 1, email := "ana@x.com", password_hash := "h1", is_active := true }

/-- Second concrete user, member of tenant 2 only. -/
def demoUserBob : User :=
  { id := 2, email := "bob@x.com", password_hash := "h2", is_active := true }

/-- Bucket violating both rules: not named *-prod and no region. -/
def demoAsset1 : Asset :=
  { id := 10, tenant_id := 1, type := "aws_s3_bucket", name := "app-data",
    region := none, config_json := none, created_at := 0 }

/-- Bucket violating neither rule. -/
def demoAsset2 : Asset :=
  { id := 11, tenant_id := 1, type := "aws_s3_bucket", name := "app-data-prod",
    region := some "us-east-1", config_json := none, created_at := 1 }

/-- A finding of tenant 1 already triaged to resolved. -/
def demoResolvedFinding : Finding :=
  { id := 20, tenant_id := 1, asset_id := 10, severity := "low",
    title := "S3 bucket not tagged as production",
    description := some "Bucket \x27app-data\x27 does not end with \x27-prod\x27.",
    status := "resolved", created_at := 2 }

/-- A still-open finding of tenant 1, used to exhibit the state between the
two commits of run_checks. -/
def demoOpenFinding : Finding :=
  { id := 21, tenant_id := 1, asset_id := 10, severity := "medium",
    title := "Asset has no region set",
    description := some "Asset \x27app-data\x27 has no region specified.",
    status := "open", created_at := 3 }

/-- Concrete store for witnesses and counterexamples. -/
def demoDB : DB :=
  { users := [demoUserAna, demoUserBob],
    tenants := [{ id := 1, name := "acme" }, { id := 2, name := "globex" }],
    memberships := [{ id := 3, user_id := 1, tenant_id := 1, role := "owner" },
                    { id := 4, user_id := 2, tenant_id := 2, role := "owner" }],
    assets := [demoAsset1, demoAsset2],
    findings := [demoResolvedFinding],
    next_id := 30,
    now := 5 }

/-- The concrete store with one open finding, for the commit-window
analysis of run_checks. -/
def demoDB9 : DB := { demoDB with findings := [demoOpenFinding] }

section Lemmas

lemma filter_not_filter {α : Type} (p : α → Bool) (l : List α) :
    (l.filter (fun x => !(p x))).filter p = [] := by
  induction l with
  | nil => rfl
  | cons a l ih => by_cases h : p a <;> simp [h, ih]

lemma evalRules_mem_fields {t : Nat} {a : Asset} {d : FindingDraft}
    (h : d ∈ evalRules t a) :
    d.tenant_id = t ∧ d.asset_id = a.id ∧ d.status = "open" := by
  unfold evalRules at h
  rcases List.mem_append.1 h with h | h <;>
    · split at h
      · simp at h; subst h; exact ⟨rfl, rfl, rfl⟩
      · simp at h

lemma mem_newDrafts {db : DB} {t : Nat} {d : FindingDraft}
    (h : d ∈ newDrafts db t) :
    d.tenant_id = t ∧ d.status = "open" ∧
      ∃ a ∈ db.assets, a.tenant_id = t ∧ d.asset_id = a.id := by
  unfold newDrafts at h
  obtain ⟨a, ha, hd⟩ := List.mem_flatMap.1 h
  obtain ⟨ha', hat⟩ := List.mem_filter.1 ha
  obtain ⟨h1, h2, h3⟩ := evalRules_mem_fields hd
  exact ⟨h1, h3, a, ha', by simpa using hat, h2⟩

lemma mem_instantiate {i n : Nat} {ds : List FindingDraft} {f : Finding}
    (h : f ∈ instantiate i n ds) :
    ∃ d ∈ ds, f.tenant_id = d.tenant_id ∧ f.asset_id = d.asset_id ∧
      f.severity = d.severity ∧ f.title = d.title ∧ f.status = d.status := by
  induction ds generalizing i n with
  | nil => simp [instantiate] at h
  | cons d ds ih =>
    simp only [instantiate, List.mem_cons] at h
    rcases h with h | h
    · exact ⟨d, List.mem_cons_self d ds, by subst h; exact ⟨rfl, rfl, rfl, rfl, rfl⟩⟩
    · obtain ⟨d', hd', hf⟩ := ih h
      exact ⟨d', List.mem_cons_of_mem d hd', hf⟩

lemma instantiate_mem_of_mem {ds : List FindingDraft} {d : FindingDraft}
    (i n : Nat) (h : d ∈ ds) :
    ∃ f ∈ instantiate i n ds, f.tenant_id = d.tenant_id ∧ f.asset_id = d.asset_id ∧
      f.severity = d.severity ∧ f.title = d.title ∧ f.status = d.status := by
  induction ds generalizing i n with
  | nil => simp at h
  | cons d0 ds ih =>
    rcases List.mem_cons.1 h with h | h
    · subst h
      exact ⟨_, List.mem_cons_self _ _, rfl, rfl, rfl, rfl, rfl⟩
    · obtain ⟨f, hf, hfd⟩ := ih (i + 1) (n + 1) h
      exact ⟨f, List.mem_cons_of_mem _ hf, hfd⟩

lemma instantiate_map_key (i n : Nat) (ds : List FindingDraft) :
    (instantiate i n ds).map ruleKey = ds.map draftKey := by
  induction ds generalizing i n with
  | nil => rfl
  | cons d ds ih => simp only [instantiate, List.map_cons, ih]; rfl

lemma run_checks_result_filter_open (db : DB) (t : Nat) :
    (run_checks_result db t).filter (openFor t) = run_checks_result db t := by
  apply List.filter_eq_self.2
  intro f hf
  obtain ⟨d, hd, h1, _, _, _, h5⟩ := mem_instantiate hf
  obtain ⟨hdt, hds, _⟩ := mem_newDrafts hd
  simp [openFor, h1, h5, hdt, hds]

/-- Normal form of a successful run_checks call: membership granted, the open
rows of the tenant replaced by the freshly instantiated drafts, and exactly
those drafts returned. -/
lemma run_checks_ok {db : DB} {email : String} {u : User} {t : Nat}
    (hu : get_user_by_email db email = some u)
    (hm : ensure_user_in_tenant db u.id t = Except.ok ()) :
    run_checks db email t =
      (Except.ok (run_checks_result db t), run_checks_final db t) := by
  simp only [run_checks, hu, hm, run_checks_commit1]
  have hkept : ((db.findings.filter (fun f => !(openFor t f))).filter (openFor t)) = [] :=
    filter_not_filter (openFor t) db.findings
  have hres := run_checks_result_filter_open db t
  simp only [run_checks_result, newDrafts] at hres
  simp only [List.filter_append, hkept, List.nil_append, hres,
    run_checks_final, run_checks_result, newDrafts]

lemma ensure_not_member {db : DB} {uid t : Nat}
    (h : ∀ l ∈ db.memberships, ¬(l.user_id = uid ∧ l.tenant_id = t)) :
    ensure_user_in_tenant db uid t =
      Except.error (ApiError.forbidden "User not linked to this tenant") := by
  unfold ensure_user_in_tenant
  have hn : db.memberships.find? (fun l => l.user_id == uid && l.tenant_id == t) = none := by
    rw [List.find?_eq_none]
    intro l hl
    simp only [Bool.and_eq_true, beq_iff_eq]
    exact h l hl
  rw [hn]

lemma find?_setStatusFirst {l : List Finding} {fid : Nat} {f : Finding} (s : String)
    (h : l.find? (fun g => g.id == fid) = some f) :
    (setStatusFirst fid s l).find? (fun g => g.id == fid) =
      some { f with status := s } := by
  induction l with
  | nil => simp [List.find?] at h
  | cons g gs ih =>
    by_cases hg : (g.id == fid) = true
    · have hg1 : ((fun x : Finding => x.id == fid) g) = true := hg
      rw [List.find?_cons_of_pos (p := fun x : Finding => x.id == fid) gs hg1] at h
      injection h with h
      subst h
      simp only [setStatusFirst, hg, if_true]
      have hg2 : ((fun x : Finding => x.id == fid) { g with status := s }) = true := hg
      exact List.find?_cons_of_pos (p := fun x : Finding => x.id == fid) gs hg2
    · have hg1 : ¬((fun x : Finding => x.id == fid) g) = true := hg
      rw [List.find?_cons_of_neg (p := fun x : Finding => x.id == fid) gs hg1] at h
      simp only [setStatusFirst, hg, Bool.false_eq_true, if_false]
      rw [List.find?_cons_of_neg (p := fun x : Finding => x.id == fid)
        (setStatusFirst fid s gs) hg1]
      exact ih h

lemma mem_setStatusFirst {l : List Finding} {fid : Nat} {s : String} {g : Finding}
    (h : g ∈ setStatusFirst fid s l) :
    ∃ f ∈ l, g.asset_id = f.asset_id ∧ g.tenant_id = f.tenant_id := by
  induction l with
  | nil => simp [setStatusFirst] at h
  | cons f fs ih =>
    simp only [setStatusFirst] at h
    split at h
    · rcases List.mem_cons.1 h with h | h
      · subst h; exact ⟨f, List.mem_cons_self f fs, rfl, rfl⟩
      · exact ⟨g, List.mem_cons_of_mem f h, rfl, rfl⟩
    · rcases List.mem_cons.1 h with h | h
      · subst h; exact ⟨g, List.mem_cons_self g fs, rfl, rfl⟩
      · obtain ⟨f', hf', hh⟩ := ih h
        exact ⟨f', List.mem_cons_of_mem f hf', hh⟩

lemma mem_final_of_kept {db : DB} {t : Nat} {f : Finding}
    (hf : f ∈ db.findings) (h : openFor t f = false) :
    f ∈ (run_checks_final db t).findings := by
  unfold run_checks_final
  exact List.mem_append_left _ (List.mem_filter.2 ⟨hf, by simp [h]⟩)

lemma duplicate_open_exists {db : DB} {t : Nat} {a : Asset} {d : FindingDraft}
    (ha : a ∈ db.assets) (hat : a.tenant_id = t) (hd : d ∈ evalRules t a) :
    ∃ g ∈ run_checks_result db t, g.status = "open" ∧ g.tenant_id = t ∧
      g.asset_id = d.asset_id ∧ g.severity = d.severity ∧ g.title = d.title := by
  have hdm : d ∈ newDrafts db t := by
    unfold newDrafts
    exact List.mem_flatMap.2 ⟨a, List.mem_filter.2 ⟨ha, by simp [hat]⟩, hd⟩
  obtain ⟨g, hg, h1, h2, h3, h4, h5⟩ := instantiate_mem_of_mem db.next_id db.now hdm
  obtain ⟨hdt, hds, _⟩ := mem_newDrafts hdm
  exact ⟨g, hg, by rw [h5, hds], by rw [h1, hdt], h2, h3, h4⟩

lemma create_tenant_preserves {db : DB} (e : String) (p : TenantCreate)
    (h : FindingConsistent db) : FindingConsistent (create_tenant db e p).2 := by
  unfold create_tenant
  split
  · exact h
  · split
    · exact h
    · exact h

lemma create_asset_preserves {db : DB} (e : String) (p : AssetCreate)
    (h : FindingConsistent db) : FindingConsistent (create_asset db e p).2 := by
  unfold create_asset
  split
  · exact h
  · split
    · exact h
    · intro f hf
      obtain ⟨a', ha', h1, h2⟩ := h f hf
      exact ⟨a', List.mem_append_left _ ha', h1, h2⟩

lemma delete_asset_preserves {db : DB} (e : String) (aid : Nat)
    (h : FindingConsistent db) : FindingConsistent (delete_asset db e aid).2 := by
  unfold delete_asset
  split
  · exact h
  · split
    · exact h
    · split
      · exact h
      · intro f hf
        obtain ⟨hfd, hfneq⟩ := List.mem_filter.1 hf
        obtain ⟨a', ha', h1, h2⟩ := h f hfd
        refine ⟨a', List.mem_filter.2 ⟨ha', ?_⟩, h1, h2⟩
        simp only [Bool.not_eq_eq_eq_not, Bool.not_true, beq_eq_false_iff_ne] at hfneq ⊢
        rw [h1]
        exact hfneq

lemma run_checks_final_preserves {db : DB} (t : Nat)
    (h : FindingConsistent db) : FindingConsistent (run_checks_final db t) := by
  intro f hf
  simp only [run_checks_final] at hf ⊢
  rcases List.mem_append.1 hf with hf | hf
  · obtain ⟨hfd, _⟩ := List.mem_filter.1 hf
    exact h f hfd
  · obtain ⟨d, hd, h1, h2, _, _, _⟩ := mem_instantiate hf
    obtain ⟨hdt, _, a, ha, hat, hda⟩ := mem_newDrafts hd
    exact ⟨a, ha, by rw [h2, hda], by rw [h1, hdt]; exact hat⟩

lemma run_checks_preserves {db : DB} (e : String) (t : Nat)
    (h : FindingConsistent db) : FindingConsistent (run_checks db e t).2 := by
  unfold run_checks
  split
  · exact h
  · split
    · exact h
    · exact run_checks_final_preserves t h

lemma update_finding_preserves {db : DB} (e : String) (fid : Nat) (p : FindingUpdate)
    (h : FindingConsistent db) : FindingConsistent (update_finding db e fid p).2 := by
  unfold update_finding
  split
  · exact h
  · split
    · exact h
    · split
      · exact h
      · intro g hg
        obtain ⟨f', hf', h1, h2⟩ := mem_setStatusFirst hg
        obtain ⟨a', ha', ha1, ha2⟩ := h f' hf'
        exact ⟨a', ha', by rw [ha1, h1], by rw [ha2, h2]⟩

lemma applyOp_preserves {db : DB} (op : Op)
    (h : FindingConsistent db) : FindingConsistent (applyOp db op) := by
  cases op with
  | createTenant e p => exact create_tenant_preserves e p h
  | createAsset e p => exact create_asset_preserves e p h
  | deleteAsset e aid => exact delete_asset_preserves e aid h
  | runChecks e t => exact run_checks_preserves e t h
  | updateFinding e fid p => exact update_finding_preserves e fid p h

end Lemmas

/-- Claim C2: an aws_s3_bucket asset named app-data with no region run through
the rule engine yields exactly two open findings — the low-severity not-prod
finding and the medium-severity no-region finding, in that order — while an
aws_s3_bucket named app-data-prod in us-east-1 yields none; and a run_checks
call over a tenant holding both assets returns exactly the two findings for
the first asset and none for the second. -/
theorem rules_exact_findings :
    (∀ (t : Nat) (a : Asset), a.type = "aws_s3_bucket" → a.name = "app-data" →
      a.region = none →
      evalRules t a =
        [{ tenant_id := t, asset_id := a.id, severity := "low",
           title := "S3 bucket not tagged as production",
           description := "Bucket \x27app-data\x27 does not end with \x27-prod\x27.",
           status := "open" },
         { tenant_id := t, asset_id := a.id, severity := "medium",
           title := "Asset has no region set",
           description := "Asset \x27app-data\x27 has no region specified.",
           status := "open" }]) ∧
    (∀ (t : Nat) (a : Asset), a.type = "aws_s3_bucket" → a.name = "app-data-prod" →
      a.region = some "us-east-1" → evalRules t a = []) ∧
    (run_checks demoDB "ana@x.com" 1).1 =
      Except.ok
        [{ id := 30, tenant_id := 1, asset_id := 10, severity := "low",
           title := "S3 bucket not tagged as production",
           description := some "Bucket \x27app-data\x27 does not end with \x27-prod\x27.",
           status := "open", created_at := 5 },
         { id := 31, tenant_id := 1, asset_id := 10, severity := "medium",
           title := "Asset has no region set",
           description := some "Asset \x27app-data\x27 has no region specified.",
           status := "open", created_at := 6 }] := by
  refine ⟨?_, ?_, ?_⟩
  · intro t a h1 h2 h3
    have he : (ends_with "app-data" "-prod") = false := by decide
    simp [evalRules, h1, h2, h3, regionMissing, he]
  · intro t a h1 h2 h3
    have he : (ends_with "app-data-prod" "-prod") = true := by decide
    simp [evalRules, h1, h2, h3, regionMissing, he]
  · rfl

/-- Witness for claim C2 at the concrete demo assets. -/
theorem rules_exact_findings_witness :
    evalRules 1 demoAsset1 =
      [{ tenant_id := 1, asset_id := 10, severity := "low",
         title := "S3 bucket not tagged as production",
         description := "Bucket \x27app-data\x27 does not end with \x27-prod\x27.",
         status := "open" },
       { tenant_id := 1, asset_id := 10, severity := "medium",
         title := "Asset has no region set",
         description := "Asset \x27app-data\x27 has no region specified.",
         status := "open" }] ∧
    evalRules 1 demoAsset2 = [] :=
  ⟨rules_exact_findings.1 1 demoAsset1 rfl rfl rfl,
   rules_exact_findings.2.1 1 demoAsset2 rfl rfl rfl⟩

/-- Claim C3: a successful run_checks call deletes only the tenant's open
findings; any finding record that is non-open — or belongs to another
tenant — is still in the store, unaltered, after the run. -/
theorem nonopen_findings_survive_rerun (db : DB) (email : String) (u : User)
    (t : Nat) (f : Finding)
    (hu : get_user_by_email db email = some u)
    (hm : ensure_user_in_tenant db u.id t = Except.ok ())
    (hf : f ∈ db.findings)
    (hkeep : f.status ≠ "open" ∨ f.tenant_id ≠ t) :
    (run_checks db email t).1 = Except.ok (run_checks_result db t) ∧
    f ∈ (run_checks db email t).2.findings := by
  rw [run_checks_ok hu hm]
  refine ⟨rfl, ?_⟩
  apply mem_final_of_kept hf
  rcases hkeep with h | h
  · have hb : (f.status == "open") = false := by simpa using h
    simp [openFor, hb]
  · have hb : (f.tenant_id == t) = false := by simpa using h
    simp [openFor, hb]

/-- Witness for claim C3: the resolved demo finding survives a rerun. -/
theorem nonopen_findings_survive_rerun_witness :
    (run_checks demoDB "ana@x.com" 1).1 = Except.ok (run_checks_result demoDB 1) ∧
    demoResolvedFinding ∈ (run_checks demoDB "ana@x.com" 1).2.findings :=
  nonopen_findings_survive_rerun demoDB "ana@x.com" demoUserAna 1
    demoResolvedFinding rfl rfl (by decide) (Or.inl (by decide))

/-- Claim C4: two successive run_checks calls with no asset changes between
them both succeed and return open-finding lists with the same sequence of
(asset, severity, title) rule matches; only finding ids and timestamps can
differ. -/
theorem run_checks_idempotent_rule_keys (db : DB) (email : String) (u : User)
    (t : Nat)
    (hu : get_user_by_email db email = some u)
    (hm : ensure_user_in_tenant db u.id t = Except.ok ()) :
    (run_checks db email t).1 = Except.ok (run_checks_result db t) ∧
    (run_checks (run_checks db email t).2 email t).1 =
      Except.ok (run_checks_result (run_checks db email t).2 t) ∧
    (run_checks_result ((run_checks db email t).2) t).map ruleKey =
      (run_checks_result db t).map ruleKey := by
  have hu2 : get_user_by_email (run_checks_final db t) email = some u := hu
  have hm2 : ensure_user_in_tenant (run_checks_final db t) u.id t = Except.ok () := hm
  rw [run_checks_ok hu hm]
  refine ⟨rfl, ?_, ?_⟩
  · rw [run_checks_ok hu2 hm2]
  · simp only [run_checks_result, instantiate_map_key]
    rfl

/-- Witness for claim C4 at the concrete demo store. -/
theorem run_checks_idempotent_rule_keys_witness :
    (run_checks demoDB "ana@x.com" 1).1 = Except.ok (run_checks_result demoDB 1) ∧
    (run_checks (run_checks demoDB "ana@x.com" 1).2 "ana@x.com" 1).1 =
      Except.ok (run_checks_result (run_checks demoDB "ana@x.com" 1).2 1) ∧
    (run_checks_result ((run_checks demoDB "ana@x.com" 1).2) 1).map ruleKey =
      (run_checks_result demoDB 1).map ruleKey :=
  run_checks_idempotent_rule_keys demoDB "ana@x.com" demoUserAna 1 rfl rfl

/-- Claim C5: when a non-open finding corresponds to a rule that still fires
for an asset of the tenant, a rerun keeps the old row in place and inserts a
fresh open finding for the same condition, so both rows coexist afterwards. -/
theorem resolved_row_and_duplicate_open (db : DB) (email : String) (u : User)
    (t : Nat) (f : Finding) (a : Asset) (d : FindingDraft)
    (hu : get_user_by_email db email = some u)
    (hm : ensure_user_in_tenant db u.id t = Except.ok ())
    (hf : f ∈ db.findings) (hstat : f.status ≠ "open")
    (ha : a ∈ db.assets) (hat : a.tenant_id = t)
    (hd : d ∈ evalRules t a) :
    f ∈ (run_checks db email t).2.findings ∧
    ∃ g ∈ (run_checks db email t).2.findings, g.status = "open" ∧
      g.asset_id = d.asset_id ∧ g.severity = d.severity ∧ g.title = d.title ∧
      g ≠ f := by
  rw [run_checks_ok hu hm]
  constructor
  · apply mem_final_of_kept hf
    have hb : (f.status == "open") = false := by simpa using hstat
    simp [openFor, hb]
  · obtain ⟨g, hg, h1, _, h3, h4, h5⟩ := duplicate_open_exists ha hat hd
    refine ⟨g, ?_, h1, h3, h4, h5, ?_⟩
    · exact List.mem_append_right _ hg
    · intro hgf
      rw [hgf] at h1
      exact hstat h1

/-- Witness for claim C5: after the rerun the resolved demo finding and a
fresh open duplicate of the low rule both sit in the store. -/
theorem resolved_row_and_duplicate_open_witness :
    demoResolvedFinding ∈ (run_checks demoDB "ana@x.com" 1).2.findings ∧
    ∃ g ∈ (run_checks demoDB "ana@x.com" 1).2.findings, g.status = "open" ∧
      g.asset_id = 10 ∧ g.severity = "low" ∧
      g.title = "S3 bucket not tagged as production" ∧ g ≠ demoResolvedFinding :=
  resolved_row_and_duplicate_open demoDB "ana@x.com" demoUserAna 1
    demoResolvedFinding demoAsset1
    { tenant_id := 1, asset_id := 10, severity := "low",
      title := "S3 bucket not tagged as production",
      description := "Bucket \x27app-data\x27 does not end with \x27-prod\x27.",
      status := "open" }
    rfl rfl (by decide) (by decide) (by decide) rfl (by decide)

/-- Counterexample to the ordering clause of claim C6: the concrete run
succeeds yet its returned list is NOT sorted by creation time descending —
the source query in run_checks has no order_by clause, rows come back in
insertion order (oldest first within the batch). -/
theorem run_checks_not_created_desc :
    okNotDescending (run_checks demoDB "ana@x.com" 1).1 = true := rfl

/-- Claim C6 (amended): a successful run_checks call returns exactly the
tenant's open findings as re-read from the store after the replace — not
merely the newly inserted rows — in store order; no ordering clause is
applied. -/
theorem run_checks_returns_current_open_set (db : DB) (email : String)
    (u : User) (t : Nat)
    (hu : get_user_by_email db email = some u)
    (hm : ensure_user_in_tenant db u.id t = Except.ok ()) :
    (run_checks db email t).1 =
      Except.ok ((run_checks db email t).2.findings.filter (openFor t)) := by
  rw [run_checks_ok hu hm]
  simp only [run_checks_final]
  rw [List.filter_append, filter_not_filter, run_checks_result_filter_open,
    List.nil_append]

/-- Witness for claim C6 (amended) at the concrete demo store. -/
theorem run_checks_returns_current_open_set_witness :
    (run_checks demoDB "ana@x.com" 1).1 =
      Except.ok ((run_checks demoDB "ana@x.com" 1).2.findings.filter (openFor 1)) :=
  run_checks_returns_current_open_set demoDB "ana@x.com" demoUserAna 1 rfl rfl

/-- Claim C7: update_finding applies any status string verbatim — there is no
server-side enumeration validation — and the stored row ends up with exactly
that status. -/
theorem update_finding_accepts_any_status (db : DB) (email : String) (u : User)
    (fid : Nat) (f : Finding) (s : String)
    (hu : get_user_by_email db email = some u)
    (hf : db.findings.find? (fun g => g.id == fid) = some f)
    (hm : ensure_user_in_tenant db u.id f.tenant_id = Except.ok ()) :
    update_finding db email fid { status := s } =
      (Except.ok { f with status := s },
       { db with findings := setStatusFirst fid s db.findings, now := db.now + 1 }) ∧
    (update_finding db email fid { status := s }).2.findings.find?
        (fun g => g.id == fid) = some { f with status := s } := by
  have h1 : update_finding db email fid { status := s } =
      (Except.ok { f with status := s },
       { db with findings := setStatusFirst fid s db.findings, now := db.now + 1 }) := by
    simp only [update_finding, hu, hf, hm]
  refine ⟨h1, ?_⟩
  rw [h1]
  exact find?_setStatusFirst s hf

/-- Witness for claim C7: the string bogus, outside the documented enum, is
stored verbatim. -/
theorem update_finding_accepts_any_status_witness :
    update_finding demoDB "ana@x.com" 20 { status := "bogus" } =
      (Except.ok { demoResolvedFinding with status := "bogus" },
       { demoDB with findings := setStatusFirst 20 "bogus" demoDB.findings,
                     now := demoDB.now + 1 }) ∧
    (update_finding demoDB "ana@x.com" 20 { status := "bogus" }).2.findings.find?
        (fun g => g.id == 20) = some { demoResolvedFinding with status := "bogus" } :=
  update_finding_accepts_any_status demoDB "ana@x.com" demoUserAna 20
    demoResolvedFinding "bogus" rfl rfl rfl

/-- Claim C8: findings generated by run_checks reference an asset of the same
tenant, and the store invariant — each finding's referenced asset exists and
carries the finding's tenant id — is preserved by every sequence of endpoint
operations. -/
theorem finding_tenant_consistency (db : DB) (ops : List Op)
    (h : FindingConsistent db) : FindingConsistent (applyOps db ops) := by
  induction ops generalizing db with
  | nil => exact h
  | cons op ops ih => exact ih _ (applyOp_preserves op h)

/-- Witness for claim C8: the invariant holds after a concrete run_checks and
triage sequence over the demo store. -/
theorem finding_tenant_consistency_witness :
    FindingConsistent demoDB ∧
    FindingConsistent (applyOps demoDB
      [Op.runChecks "ana@x.com" 1,
       Op.updateFinding "ana@x.com" 30 { status := "resolved" }]) := by
  have h0 : FindingConsistent demoDB := by
    intro f hf
    simp only [demoDB, List.mem_singleton] at hf
    subst hf
    exact ⟨demoAsset1, by simp [demoDB], rfl, rfl⟩
  exact ⟨h0, finding_tenant_consistency demoDB _ h0⟩

/-- Claim C9 is violated by the code: run_checks commits twice (main.py lines
201 and 226), not once.  At the concrete store the tenant has one open
finding before the call; the state committed by the first commit has zero
open findings while the final state has two, so a concurrent reader between
the two commits observes the deleted-but-not-yet-regenerated window the
claim says cannot exist. -/
theorem run_checks_two_commit_windows :
    (demoDB9.findings.filter (openFor 1)).length = 1 ∧
    ((run_checks_commit1 demoDB9 1).findings.filter (openFor 1)).length = 0 ∧
    ((run_checks demoDB9 "ana@x.com" 1).2.findings.filter (openFor 1)).length = 2 :=
  ⟨rfl, rfl, rfl⟩

/-- Claim C10: delete_asset and update_finding look the resource up before the
membership check — a missing id yields NotFound for any authenticated caller,
while an existing resource of a tenant the caller is not a member of yields
Forbidden, so the two cases are distinguishable from outside. -/
theorem lookup_before_membership (db : DB) (email : String) (u : User)
    (hu : get_user_by_email db email = some u) :
    (∀ aid, db.assets.find? (fun x => x.id == aid) = none →
      delete_asset db email aid =
        (Except.error (ApiError.notFound "Asset not found"), db)) ∧
    (∀ aid a, db.assets.find? (fun x => x.id == aid) = some a →
      (∀ l ∈ db.memberships, ¬(l.user_id = u.id ∧ l.tenant_id = a.tenant_id)) →
      delete_asset db email aid =
        (Except.error (ApiError.forbidden "User not linked to this tenant"), db)) ∧
    (∀ fid p, db.findings.find? (fun g => g.id == fid) = none →
      update_finding db email fid p =
        (Except.error (ApiError.notFound "Finding not found"), db)) ∧
    (∀ fid p f, db.findings.find? (fun g => g.id == fid) = some f →
      (∀ l ∈ db.memberships, ¬(l.user_id = u.id ∧ l.tenant_id = f.tenant_id)) →
      update_finding db email fid p =
        (Except.error (ApiError.forbidden "User not linked to this tenant"), db)) := by
  refine ⟨?_, ?_, ?_, ?_⟩
  · intro aid ha
    simp only [delete_asset, hu, ha]
  · intro aid a ha hnm
    simp only [delete_asset, hu, ha, ensure_not_member hnm]
  · intro fid p hf
    simp only [update_finding, hu, hf]
  · intro fid p f hf hnm
    simp only [update_finding, hu, hf, ensure_not_member hnm]

/-- Witness for claim C10: user bob, member of tenant 2 only, can tell an
absent id (NotFound) from tenant 1's resources (Forbidden). -/
theorem lookup_before_membership_witness :
    delete_asset demoDB "bob@x.com" 999 =
      (Except.error (ApiError.notFound "Asset not found"), demoDB) ∧
    delete_asset demoDB "bob@x.com" 10 =
      (Except.error (ApiError.forbidden "User not linked to this tenant"), demoDB) ∧
    update_finding demoDB "bob@x.com" 999 { status := "resolved" } =
      (Except.error (ApiError.notFound "Finding not found"), demoDB) ∧
    update_finding demoDB "bob@x.com" 20 { status := "resolved" } =
      (Except.error (ApiError.forbidden "User not linked to this tenant"), demoDB) := by
  have h := lookup_before_membership demoDB "bob@x.com" demoUserBob rfl
  exact ⟨h.1 999 rfl, h.2.1 10 demoAsset1 rfl (by decide),
    h.2.2.1 999 { status := "resolved" } rfl,
    h.2.2.2 20 { status := "resolved" } demoResolvedFinding rfl (by decide)⟩

/-- Claim C1: a user with no membership row for tenant t gets Forbidden from
every t-scoped operation — create_asset, list_assets, run_checks,
list_findings, and delete_asset/update_finding on resources owned by t — and
the store comes back unchanged, whatever resource id is supplied. -/
theorem tenant_isolation_forbidden (db : DB) (email : String) (u : User) (t : Nat)
    (hu : get_user_by_email db email = some u)
    (hnm : ∀ l ∈ db.memberships, ¬(l.user_id = u.id ∧ l.tenant_id = t)) :
    (∀ p : AssetCreate, p.tenant_id = t →
      create_asset db email p =
        (Except.error (ApiError.forbidden "User not linked to this tenant"), db)) ∧
    (list_assets db email t =
      Except.error (ApiError.forbidden "User not linked to this tenant")) ∧
    (run_checks db email t =
      (Except.error (ApiError.forbidden "User not linked to this tenant"), db)) ∧
    (∀ sf, list_findings db email t sf =
      Except.error (ApiError.forbidden "User not linked to this tenant")) ∧
    (∀ aid a, db.assets.find? (fun x => x.id == aid) = some a → a.tenant_id = t →
      delete_asset db email aid =
        (Except.error (ApiError.forbidden "User not linked to this tenant"), db)) ∧
    (∀ fid p f, db.findings.find? (fun g => g.id == fid) = some f → f.tenant_id = t →
      update_finding db email fid p =
        (Except.error (ApiError.forbidden "User not linked to this tenant"), db)) := by
  have he := ensure_not_member hnm
  refine ⟨?_, ?_, ?_, ?_, ?_, ?_⟩
  · intro p hp
    simp only [create_asset, hu, hp, he]
  · simp only [list_assets, hu, he]
  · simp only [run_checks, hu, he]
  · intro sf
    simp only [list_findings, hu, he]
  · intro aid a ha hat
    simp only [delete_asset, hu, ha, hat, he]
  · intro fid p f hf hft
    simp only [update_finding, hu, hf, hft, he]

/-- Witness for claim C1: user bob is rejected with Forbidden by every
tenant-1-scoped operation, and the store is unchanged. -/
theorem tenant_isolation_forbidden_witness :
    create_asset demoDB "bob@x.com"
      { tenant_id := 1, type := "aws_s3_bucket", name := "x", region := none,
        config_json := none } =
      (Except.error (ApiError.forbidden "User not linked to this tenant"), demoDB) ∧
    list_assets demoDB "bob@x.com" 1 =
      Except.error (ApiError.forbidden "User not linked to this tenant") ∧
    run_checks demoDB "bob@x.com" 1 =
      (Except.error (ApiError.forbidden "User not linked to this tenant"), demoDB) ∧
    list_findings demoDB "bob@x.com" 1 none =
      Except.error (ApiError.forbidden "User not linked to this tenant") ∧
    delete_asset demoDB "bob@x.com" 10 =
      (Except.error (ApiError.forbidden "User not linked to this tenant"), demoDB) ∧
    update_finding demoDB "bob@x.com" 20 { status := "resolved" } =
      (Except.error (ApiError.forbidden "User not linked to this tenant"), demoDB) := by
  have h := tenant_isolation_forbidden demoDB "bob@x.com" demoUserBob 1 rfl (by decide)
  exact ⟨h.1 _ rfl, h.2.1, h.2.2.1, h.2.2.2.1 none,
    h.2.2.2.2.1 10 demoAsset1 rfl rfl,
    h.2.2.2.2.2 20 { status := "resolved" } demoResolvedFinding rfl rfl⟩

end CloudSentinel
